import Mathlib

/-!
Shallow embedding of `main-reference.py` (Anime Scraper API): the four
endpoint handlers `/search`, `/episodes`, `/stream`, `/seasons`, with the
scraper calls abstracted as provider outcomes (`Except Unit _`, matching the
success-or-captured-exception values produced by
`asyncio.gather(..., return_exceptions=True)`).
-/

set_option maxRecDepth 8000

namespace AnimeApi

/-- The two upstream sources wired into `main-reference.py`
(`AnimeWorldScraper` and `AnimeSaturnScraper`). -/
inductive SourceId where
  | AnimeWorld
  | AnimeSaturn
deriving Repr, DecidableEq

/-- Python truthiness of a string-or-None value (`if AW:`, `if url:`):
`None` and the empty string are falsy. -/
def truthyS : Option String → Bool
  | some s => s ≠ ""
  | none => false

/-- Python `a or b` on string-or-None values: `a` unless `a` is falsy. -/
def pyOr (a b : Option String) : Option String :=
  if truthyS a then a else b

/-- The whitespace stripped by Python's `str.strip()`: the characters for
which `str.isspace()` holds (CPython `Py_UNICODE_ISSPACE`) — U+0009-U+000D,
U+001C-U+001F, U+0020, U+0085, U+00A0, U+1680, U+2000-U+200A, U+2028,
U+2029, U+202F, U+205F and U+3000. -/
def isPySpace (c : Char) : Bool :=
  (0x09 ≤ c.val ∧ c.val ≤ 0x0D) ∨ (0x1C ≤ c.val ∧ c.val ≤ 0x1F) ∨
  c.val = 0x20 ∨ c.val = 0x85 ∨ c.val = 0xA0 ∨ c.val = 0x1680 ∨
  (0x2000 ≤ c.val ∧ c.val ≤ 0x200A) ∨ c.val = 0x2028 ∨ c.val = 0x2029 ∨
  c.val = 0x202F ∨ c.val = 0x205F ∨ c.val = 0x3000

/-- Python `q.strip()` (ASCII whitespace; the validation of line 43 only
compares the stripped length against 2). -/
def pyStrip (s : String) : String :=
  String.mk (((s.data.dropWhile isPySpace).reverse.dropWhile isPySpace).reverse)

/-- Python `d[k] = v` on an insertion-ordered dict, modelled on an
association list: replace in place when the key is present, append at the
end otherwise. -/
def dictInsert {α β : Type} [DecidableEq α] (k : α) (v : β) :
    List (α × β) → List (α × β)
  | [] => [(k, v)]
  | (k', v') :: rest =>
      if k' = k then (k, v) :: rest else (k', v') :: dictInsert k v rest

/-- Python `d.get(k)` / `d[k]` lookup on the association-list dict. -/
def dictLookup {α β : Type} [DecidableEq α] (k : α) :
    List (α × β) → Option β
  | [] => none
  | (k', v') :: rest => if k' = k then some v' else dictLookup k rest

/-- In-place mutation of the value stored at key `k`
(Python `d[k]["sources"][s] = ...` style updates). -/
def dictUpdate {α β : Type} [DecidableEq α] (k : α) (f : β → β) :
    List (α × β) → List (α × β)
  | [] => []
  | (k', v') :: rest =>
      if k' = k then (k', f v') :: rest else (k', v') :: dictUpdate k f rest

/-- One raw episode dict as produced by a scraper's `get_episodes`: exactly
the fields `main-reference.py` reads (`episode_number`, `id`, and the
optional `url` / `stream_url`). -/
structure EpItem where
  episode_number : Nat
  url : Option String
  stream_url : Option String
  id : String
deriving Repr, DecidableEq

/-- Per-source availability sub-record of an episode
(`{"available": ..., "url": ..., "id": ...}`). -/
structure SourceAvailability where
  available : Bool
  url : Option String
  id : Option String
deriving Repr, DecidableEq

/-- `{"available": False, "url": None, "id": None}` (lines 144-148). -/
def unavailable : SourceAvailability := ⟨false, none, none⟩

/-- A unified episode record: `{"episode_number": ..., "sources": {...}}`,
the sources dict kept as an insertion-ordered association list. -/
structure EpRecord where
  episode_number : Nat
  sources : List (SourceId × SourceAvailability)
deriving Repr, DecidableEq

/-- The availability record stored for a present episode (lines 116-120 and
132-136): `{"available": True, "url": ep.get("url") or ep.get("stream_url"),
"id": ep["id"]}`. -/
def availOf (ep : EpItem) : SourceAvailability :=
  ⟨true, pyOr ep.url ep.stream_url, some ep.id⟩

/-- One iteration of the per-source episode loops in `get_episodes`
(lines 112-120 / 128-136): create the record on first sight of the episode
number, then set this source's slot, overwriting any earlier value written
by the same source. -/
def processEp (src : SourceId) (acc : List (Nat × EpRecord)) (ep : EpItem) :
    List (Nat × EpRecord) :=
  let n := ep.episode_number
  match dictLookup n acc with
  | some _ =>
      dictUpdate n
        (fun r => { r with sources := dictInsert src (availOf ep) r.sources }) acc
  | none =>
      acc ++ [(n, { episode_number := n, sources := [(src, availOf ep)] })]

/-- "Fill in missing sources as unavailable" (lines 140-148). -/
def fillSources (r : EpRecord) : EpRecord :=
  { r with
    sources :=
      [SourceId.AnimeWorld, SourceId.AnimeSaturn].foldl
        (fun s src =>
          if (dictLookup src s).isSome then s else dictInsert src unavailable s)
        r.sources }

/-- A FastAPI `HTTPException`, as raised by the endpoint handlers. -/
structure HTTPError where
  status_code : Nat
  detail : String
deriving Repr, DecidableEq

/-- The sort key of line 151:
`sorted(all_episodes.values(), key=lambda x: x["episode_number"])`. -/
def epLe (a b : EpRecord) : Prop := a.episode_number ≤ b.episode_number

instance : DecidableRel epLe := fun a b => Nat.decLe _ _

instance : IsTotal EpRecord epLe := ⟨fun a b => Nat.le_total _ _⟩

instance : IsTrans EpRecord epLe := ⟨fun _ _ _ => Nat.le_trans⟩

/-- The `all_episodes` dict of `get_episodes` after both per-source loops
(lines 106-136): the AnimeWorld pass runs first from the empty dict, the
AnimeSaturn pass continues on its result.  An outcome is consulted exactly
when the matching id is truthy and the gathered value is not an exception
(the `len(results)` and index guards of lines 109 and 122 are always
satisfied in precisely those cases, since `asyncio.gather` returns one slot
per issued task, in task order). -/
def sourcePass (src : SourceId) (idStr : Option String)
    (res : Except Unit (List EpItem)) (acc : List (Nat × EpRecord)) :
    List (Nat × EpRecord) :=
  match truthyS idStr, res with
  | true, .ok eps => eps.foldl (processEp src) acc
  | _, _ => acc

/-- Both passes: AnimeWorld first from the empty dict, AnimeSaturn on its
result (lines 106-136). -/
def epDict (AW AS : Option String) (awRes asRes : Except Unit (List EpItem)) :
    List (Nat × EpRecord) :=
  sourcePass .AnimeSaturn AS asRes (sourcePass .AnimeWorld AW awRes [])

/-- The `/episodes` endpoint (lines 77-159): validation, per-source merge
into `all_episodes`, unavailable fill, sort by episode number. -/
def get_episodes (AW AS : Option String)
    (awRes asRes : Except Unit (List EpItem)) :
    Except HTTPError (List EpRecord) :=
  if ¬ truthyS AW ∧ ¬ truthyS AS then
    .error ⟨400, "At least one source ID (AW or AS) must be provided"⟩
  else
    .ok (List.insertionSort epLe
      (((epDict AW AS awRes asRes).map Prod.snd).map fillSources))

/-- An episode entry built by the `/seasons` AnimeWorld branch
(lines 262-278): AnimeWorld present, AnimeSaturn hardcoded unavailable. -/
def awSeasonEpisode (ep : EpItem) : EpRecord :=
  { episode_number := ep.episode_number,
    sources := [(SourceId.AnimeWorld, availOf ep),
                (SourceId.AnimeSaturn, unavailable)] }

/-- An episode entry built by the `/seasons` AnimeSaturn branch
(lines 288-305): AnimeWorld hardcoded unavailable, AnimeSaturn present. -/
def asSeasonEpisode (ep : EpItem) : EpRecord :=
  { episode_number := ep.episode_number,
    sources := [(SourceId.AnimeWorld, unavailable),
                (SourceId.AnimeSaturn, availOf ep)] }

/-- The value returned by `/seasons` (lines 254-257): a flat episode list
under `"AnimeWorld"`, and a season-label dict under `"AnimeSaturn"`. -/
structure SeasonResult where
  AnimeWorld : List EpRecord
  AnimeSaturn : List (String × List EpRecord)
deriving Repr, DecidableEq

/-- The `"AnimeWorld"` component of the `/seasons` result (lines 255 and
260-278): a plain episode list, left empty unless AnimeWorld was queried
and did not fail. -/
def awSeasonPart (AW : Option String) (awRes : Except Unit (List EpItem)) :
    List EpRecord :=
  match truthyS AW, awRes with
  | true, .ok eps => eps.map awSeasonEpisode
  | _, _ => []

/-- The `"AnimeSaturn"` component of the `/seasons` result (lines 256 and
280-306): an initially empty season dict whose single key `"S1"` is
assigned exactly when AnimeSaturn was queried and did not fail. -/
def asSeasonPart (AS : Option String) (asRes : Except Unit (List EpItem)) :
    List (String × List EpRecord) :=
  match truthyS AS, asRes with
  | true, .ok eps => [("S1", eps.map asSeasonEpisode)]
  | _, _ => []

/-- The `/seasons` endpoint (lines 226-316).  The AnimeWorld episodes are
appended to a plain list; the AnimeSaturn episodes are stored under the
single season key `"S1"` of the (initially empty) season dict. -/
def get_seasons (AW AS : Option String)
    (awRes asRes : Except Unit (List EpItem)) :
    Except HTTPError SeasonResult :=
  if ¬ truthyS AW ∧ ¬ truthyS AS then
    .error ⟨400, "At least one source ID (AW or AS) must be provided"⟩
  else
    .ok ⟨awSeasonPart AW awRes, asSeasonPart AS asRes⟩

/-- The raw value returned by a scraper's `get_stream_url`.
`main-reference.py` distinguishes strings from dicts (`isinstance`) and
tests Python truthiness, so the model keeps `None`, strings, and
string-valued dicts. -/
inductive StreamRaw where
  | pynone
  | str (s : String)
  | dict (entries : List (String × Option String))
deriving Repr, DecidableEq

/-- Python truthiness of a raw stream value. -/
def StreamRaw.truthy : StreamRaw → Bool
  | .pynone => false
  | .str s => s ≠ ""
  | .dict d => ¬ d.isEmpty

/-- Python `d.get(k)` on a raw stream value (only reached on dict values in
the code; `get` on a non-dict is never evaluated there). -/
def StreamRaw.get (k : String) : StreamRaw → Option String
  | .dict d =>
      match dictLookup k d with
      | some v => v
      | none => none
  | _ => none

/-- The AnimeWorld iframe embed template of line 192. -/
def iframeEmbed (url : String) : String :=
  "<iframe src=\"" ++ url ++
    "\" width=\"560\" height=\"315\" scrolling=\"no\" frameborder=\"0\" allowfullscreen></iframe>"

/-- The AnimeSaturn proxy url of line 205. -/
def proxyUrl (url : String) : String :=
  "https://animesaturn-proxy.onrender.com/proxy?url=" ++ url

/-- The AnimeSaturn synthesized video embed of lines 206-213 (the f-string
keeps its trailing spaces and newlines). -/
def videoEmbed (url : String) : String :=
  "<video \n    src=\"" ++ proxyUrl url ++
    "\" \n    class=\"w-full h-full\" \n    controls \n    playsinline \n    preload=\"metadata\" \n    autoplay>\n</video>"

/-- Per-source stream availability record
(`{"available": ..., "stream_url": ..., "embed": ...}`). -/
structure StreamAvail where
  available : Bool
  stream_url : Option String
  embed : Option String
deriving Repr, DecidableEq

/-- `{"available": False, "stream_url": None, "embed": None}`
(lines 182-183). -/
def defaultStream : StreamAvail := ⟨false, none, none⟩

/-- The value returned by `/stream` (lines 181-184). -/
structure StreamResult where
  AnimeWorld : StreamAvail
  AnimeSaturn : StreamAvail
deriving Repr, DecidableEq

/-- The AnimeWorld branch of `/stream` (lines 187-193), reached only on a
truthy, non-exception gathered value: the embed is always resynthesized from
the url via the iframe template; a pre-built `embed` entry of the dict is
never consulted. -/
def awStream (raw : StreamRaw) : StreamAvail :=
  let url : Option String :=
    match raw with
    | .str s => some s
    | r => r.get "stream_url"
  { available := true
    stream_url := url
    embed :=
      match url with
      | some u => if u ≠ "" then some (iframeEmbed u) else none
      | none => none }

/-- The AnimeSaturn branch of `/stream` (lines 195-219), applied only when
`data` is truthy and not an exception.  `provider` (line 200) is computed by
the code but never used, so it is omitted.  A falsy pre-built embed is
replaced by the synthesized proxy video embed when the url is truthy. -/
def asStream (data : StreamRaw) : StreamAvail :=
  let url : Option String :=
    match data with
    | .str s => some s
    | d => d.get "stream_url"
  let embed0 : Option String :=
    match data with
    | .dict _ => data.get "embed"
    | _ => none
  let embed_html : Option String :=
    match url with
    | some u => if ¬ truthyS embed0 ∧ u ≠ "" then some (videoEmbed u) else embed0
    | none => embed0
  { available := true, stream_url := url, embed := embed_html }

/-- The reported AnimeWorld slot of `/stream` (lines 181-193): the default
unavailable record unless AnimeWorld was queried and its gathered outcome is
a truthy non-exception. -/
def awStreamSlot (AW : Option String) (awRes : Except Unit StreamRaw) : StreamAvail :=
  match truthyS AW, awRes with
  | true, .ok raw => if raw.truthy then awStream raw else defaultStream
  | _, _ => defaultStream

/-- The reported AnimeSaturn slot of `/stream` (lines 181-219), analogous. -/
def asStreamSlot (AS : Option String) (asRes : Except Unit StreamRaw) : StreamAvail :=
  match truthyS AS, asRes with
  | true, .ok data => if data.truthy then asStream data else defaultStream
  | _, _ => defaultStream

/-- The `/stream` endpoint (lines 161-224): validation, then each queried
source's gathered outcome is reported independently, defaulting to the
unavailable record. -/
def get_stream_urls (AW AS : Option String)
    (awRes asRes : Except Unit StreamRaw) :
    Except HTTPError StreamResult :=
  if ¬ truthyS AW ∧ ¬ truthyS AS then
    .error ⟨400, "At least one episode ID (AW or AS) must be provided"⟩
  else
    .ok ⟨awStreamSlot AW awRes, asStreamSlot AS asRes⟩

/-- A normalized search entry (spec §3, NormalizedSearchEntry): the fields
the search merge needs. -/
structure SearchEntry where
  title : String
  sourceId : SourceId
  sourceItemId : String
deriving Repr, DecidableEq

/-- A unified search result (spec §3, UnifiedSearchResult). -/
structure UnifiedSearchResult where
  title : String
  perSource : List (SourceId × String)
deriving Repr, DecidableEq

/-- Modelled from the spec: title normalization for duplicate detection —
"case-insensitive, whitespace-normalized exact match" (spec §4.3);
`utils.detect_duplicates` is imported by `main-reference.py` but its code is
not part of the reviewed file. -/
def normTitle (s : String) : String := s.trim.toLower

/-- Modelled from the spec: the duplicate-detection predicate
`isSameTitle(a, b)` of spec §4.3, at its default normalized-exact-match
strength. -/
def isSameTitle (a b : String) : Bool := normTitle a == normTitle b

/-- Modelled from the spec: add one entry to the accumulated unified results
(spec §4.3 search merge — attach the entry's source to the first title
match, otherwise append a new result; the creating entry's title is kept). -/
def insertEntry : List UnifiedSearchResult → SearchEntry → List UnifiedSearchResult
  | [], e => [⟨e.title, [(e.sourceId, e.sourceItemId)]⟩]
  | u :: rest, e =>
      if isSameTitle u.title e.title then
        { u with perSource := dictInsert e.sourceId e.sourceItemId u.perSource } :: rest
      else
        u :: insertEntry rest e

/-- Modelled from the spec: `utils.detect_duplicates` (imported on line 11,
not part of the reviewed file) — iterate all entries from both sources in
original order, merging title duplicates (spec §4.3). -/
def detect_duplicates (awL asL : List SearchEntry) : List UnifiedSearchResult :=
  (awL ++ asL).foldl insertEntry []

/-- A gathered search outcome degraded to a list: `results[i]` when it is
not an exception, else `[]` (lines 58-59). -/
def orEmpty (res : Except Unit (List SearchEntry)) : List SearchEntry :=
  match res with
  | .ok l => l
  | .error _ => []

/-- The `/search` endpoint (lines 36-75): length validation before any
provider is consulted (`not q or len(q.strip()) < 2`), fan-out with captured
exceptions degrading to empty lists, then deduplication. -/
def search_anime (q : String)
    (awRes asRes : Except Unit (List SearchEntry)) :
    Except HTTPError (List UnifiedSearchResult) :=
  if q = "" ∨ (pyStrip q).length < 2 then
    .error ⟨400, "Query must be at least 2 characters long"⟩
  else
    .ok (detect_duplicates (orEmpty awRes) (orEmpty asRes))

/-! ### Derived definitions used by the verification -/

/-- The last element of a source's sequence carrying the given episode
number, if any — the "last write" of that source for that number. -/
def lastWith (n : Nat) : List EpItem → Option EpItem
  | [] => none
  | e :: l =>
      match lastWith n l with
      | some x => some x
      | none => if e.episode_number = n then some e else none

/-- The effect of one source pass on the record stored at one episode
number: update the existing record's slot, or create a fresh record. -/
def updSlot (src : SourceId) (e : EpItem) : Option EpRecord → EpRecord
  | some r => { r with sources := dictInsert src (availOf e) r.sources }
  | none => { episode_number := e.episode_number, sources := [(src, availOf e)] }

/-- Every stored record carries its own key as its episode number. -/
def keyInv (d : List (Nat × EpRecord)) : Prop :=
  ∀ p ∈ d, (p.2).episode_number = p.1

/-- The dict's keys are pairwise distinct. -/
def keysNodup (d : List (Nat × EpRecord)) : Prop :=
  (d.map Prod.fst).Nodup

/-- The sorted, filled value list that `get_episodes` returns on success. -/
def epOutput (AW AS : Option String) (awRes asRes : Except Unit (List EpItem)) :
    List EpRecord :=
  List.insertionSort epLe (((epDict AW AS awRes asRes).map Prod.snd).map fillSources)

/-- Claim C1, episodes request, AnimeWorld provider failed: the response
equals the AnimeSaturn-only response, succeeds, marks AnimeWorld
unavailable everywhere, and reports AnimeSaturn's episodes exactly (one
record per reported episode number, carrying the last-written availability
of that number). -/
def episodesFailedAW (awId asId : String) (eps : List EpItem) : Prop :=
  get_episodes (some awId) (some asId) (.error ()) (.ok eps) =
      get_episodes none (some asId) (.error ()) (.ok eps)
  ∧ ∃ l, get_episodes (some awId) (some asId) (.error ()) (.ok eps) = .ok l
      ∧ (∀ r ∈ l, dictLookup SourceId.AnimeWorld r.sources = some unavailable)
      ∧ (∀ e ∈ eps, ∃ r ∈ l, r.episode_number = e.episode_number)
      ∧ (∀ r ∈ l, ∃ e, lastWith r.episode_number eps = some e ∧
           dictLookup SourceId.AnimeSaturn r.sources = some (availOf e))

/-- Claim C1, episodes request, AnimeSaturn provider failed (mirror). -/
def episodesFailedAS (awId asId : String) (eps : List EpItem) : Prop :=
  get_episodes (some awId) (some asId) (.ok eps) (.error ()) =
      get_episodes (some awId) none (.ok eps) (.error ())
  ∧ ∃ l, get_episodes (some awId) (some asId) (.ok eps) (.error ()) = .ok l
      ∧ (∀ r ∈ l, dictLookup SourceId.AnimeSaturn r.sources = some unavailable)
      ∧ (∀ e ∈ eps, ∃ r ∈ l, r.episode_number = e.episode_number)
      ∧ (∀ r ∈ l, ∃ e, lastWith r.episode_number eps = some e ∧
           dictLookup SourceId.AnimeWorld r.sources = some (availOf e))

/-- Claim C1, seasons request, AnimeWorld provider failed: the response
equals the AnimeSaturn-only response, succeeds, leaves the AnimeWorld part
empty, reports AnimeSaturn's episodes exactly under `"S1"`, and marks
AnimeWorld unavailable in every episode of every grouping. -/
def seasonsFailedAW (awId asId : String) (eps : List EpItem) : Prop :=
  get_seasons (some awId) (some asId) (.error ()) (.ok eps) =
      get_seasons none (some asId) (.error ()) (.ok eps)
  ∧ ∃ s, get_seasons (some awId) (some asId) (.error ()) (.ok eps) = .ok s
      ∧ s.AnimeWorld = []
      ∧ s.AnimeSaturn = [("S1", eps.map asSeasonEpisode)]
      ∧ ∀ p ∈ s.AnimeSaturn, ∀ r ∈ p.2,
          dictLookup SourceId.AnimeWorld r.sources = some unavailable

/-- Claim C1, seasons request, AnimeSaturn provider failed (mirror). -/
def seasonsFailedAS (awId asId : String) (eps : List EpItem) : Prop :=
  get_seasons (some awId) (some asId) (.ok eps) (.error ()) =
      get_seasons (some awId) none (.ok eps) (.error ())
  ∧ ∃ s, get_seasons (some awId) (some asId) (.ok eps) (.error ()) = .ok s
      ∧ s.AnimeSaturn = []
      ∧ s.AnimeWorld = eps.map awSeasonEpisode
      ∧ ∀ r ∈ s.AnimeWorld,
          dictLookup SourceId.AnimeSaturn r.sources = some unavailable

/-- Claim C1, assembled over both endpoints and both failure sides. -/
def oneSourceFailedProp (awId asId : String) (eps : List EpItem) : Prop :=
  episodesFailedAW awId asId eps ∧ episodesFailedAS awId asId eps ∧
  seasonsFailedAW awId asId eps ∧ seasonsFailedAS awId asId eps

/-- The episode sequence a source actually contributes to a request: its
reported list when it was queried (truthy id) and did not fail, the empty
sequence otherwise. -/
def sourceEps (idStr : Option String) (res : Except Unit (List EpItem)) :
    List EpItem :=
  match truthyS idStr, res with
  | true, .ok eps => eps
  | _, _ => []

/-- Claim C7, at a successful episodes response `l`: each record's slot for
a source is the availability built from that source's LAST contributed item
with that episode number (or the unavailable placeholder), and every
contributed episode number is represented.  So a duplicated number within
either source's sequence resolves to its last write, and the other source's
slots depend only on that other source's own sequence. -/
def lastWriteWinsProp (AW AS : Option String)
    (awRes asRes : Except Unit (List EpItem)) (l : List EpRecord) : Prop :=
  (∀ r ∈ l,
     dictLookup SourceId.AnimeWorld r.sources =
       (match lastWith r.episode_number (sourceEps AW awRes) with
        | some e => some (availOf e)
        | none => some unavailable)
     ∧ dictLookup SourceId.AnimeSaturn r.sources =
       (match lastWith r.episode_number (sourceEps AS asRes) with
        | some e => some (availOf e)
        | none => some unavailable))
  ∧ (∀ n : Nat,
      (lastWith n (sourceEps AW awRes)).isSome ∨
        (lastWith n (sourceEps AS asRes)).isSome →
      ∃ r ∈ l, r.episode_number = n)

/-- Amended claim C8: for a queried source whose truthy successful dict
result carries a truthy URL, the reported embed is synthesized as a pure
function of the url and the source — AnimeWorld always receives the iframe
template and ignores any pre-built embed markup in its result; AnimeSaturn
receives its pre-built markup when that markup is truthy and the proxy
video template otherwise. -/
def embedSynthesisProp : Prop :=
  (∀ (awId : String), awId ≠ "" →
     ∀ (d : List (String × Option String)) (u : String)
       (AS : Option String) (asRes : Except Unit StreamRaw),
       d ≠ [] → StreamRaw.get "stream_url" (.dict d) = some u → u ≠ "" →
       ∃ res, get_stream_urls (some awId) AS (.ok (.dict d)) asRes = .ok res
         ∧ res.AnimeWorld = ⟨true, some u, some (iframeEmbed u)⟩)
  ∧ (∀ (asId : String), asId ≠ "" →
     ∀ (d : List (String × Option String)) (u : String)
       (AW : Option String) (awRes : Except Unit StreamRaw),
       d ≠ [] → StreamRaw.get "stream_url" (.dict d) = some u → u ≠ "" →
       truthyS (StreamRaw.get "embed" (.dict d)) = false →
       ∃ res, get_stream_urls AW (some asId) awRes (.ok (.dict d)) = .ok res
         ∧ res.AnimeSaturn = ⟨true, some u, some (videoEmbed u)⟩)
  ∧ (∀ (asId : String), asId ≠ "" →
     ∀ (d : List (String × Option String)) (m : String)
       (AW : Option String) (awRes : Except Unit StreamRaw),
       d ≠ [] → StreamRaw.get "embed" (.dict d) = some m → m ≠ "" →
       ∃ res, get_stream_urls AW (some asId) awRes (.ok (.dict d)) = .ok res
         ∧ res.AnimeSaturn = ⟨true, StreamRaw.get "stream_url" (.dict d), some m⟩)

/-- Amended claim C9, at a successful seasons response `s`: each queried
source that reported a (flat) episode list contributes independently —
AnimeSaturn's episodes as the single default season grouping `"S1"`, each
episode marking AnimeWorld unavailable; AnimeWorld's episodes as a bare,
unlabelled list under its key, each episode marking AnimeSaturn
unavailable.  This covers single-source requests as well: the untouched
source's hypotheses are simply never satisfied. -/
def seasonShapeProp (AW AS : Option String)
    (awRes asRes : Except Unit (List EpItem)) (s : SeasonResult) : Prop :=
  (∀ eps, truthyS AW = true → awRes = .ok eps →
     s.AnimeWorld = eps.map awSeasonEpisode
     ∧ ∀ r ∈ s.AnimeWorld,
         dictLookup SourceId.AnimeSaturn r.sources = some unavailable)
  ∧ (∀ eps, truthyS AS = true → asRes = .ok eps →
     s.AnimeSaturn = [("S1", eps.map asSeasonEpisode)]
     ∧ ∀ p ∈ s.AnimeSaturn, ∀ r ∈ p.2,
         dictLookup SourceId.AnimeWorld r.sources = some unavailable)

/-! ### Association-list dict lemmas -/

theorem dictLookup_dictInsert {α β : Type} [DecidableEq α] (k' k : α) (v : β)
    (l : List (α × β)) :
    dictLookup k (dictInsert k' v l) = if k' = k then some v else dictLookup k l := by
  induction l with
  | nil => by_cases h : k' = k <;> simp [dictInsert, dictLookup, h]
  | cons p rest ih =>
      obtain ⟨a, b⟩ := p
      by_cases h1 : a = k' <;> by_cases h2 : k' = k <;>
        by_cases h3 : a = k <;>
        simp_all [dictInsert, dictLookup]

theorem dictLookup_dictUpdate {α β : Type} [DecidableEq α] (k' k : α) (f : β → β)
    (l : List (α × β)) :
    dictLookup k (dictUpdate k' f l) =
      if k' = k then (dictLookup k l).map f else dictLookup k l := by
  induction l with
  | nil => by_cases h : k' = k <;> simp [dictUpdate, dictLookup, h]
  | cons p rest ih =>
      obtain ⟨a, b⟩ := p
      by_cases h1 : a = k' <;> by_cases h2 : k' = k <;>
        by_cases h3 : a = k <;>
        simp_all [dictUpdate, dictLookup]

theorem dictInsert_dictInsert {α β : Type} [DecidableEq α] (k : α) (v w : β)
    (l : List (α × β)) :
    dictInsert k w (dictInsert k v l) = dictInsert k w l := by
  induction l with
  | nil => simp [dictInsert]
  | cons p rest ih =>
      obtain ⟨a, b⟩ := p
      by_cases h : a = k <;> simp_all [dictInsert]

theorem dictLookup_append_single {α β : Type} [DecidableEq α] (k m : α) (v : β)
    (l : List (α × β)) :
    dictLookup k (l ++ [(m, v)]) =
      match dictLookup k l with
      | some w => some w
      | none => if m = k then some v else none := by
  induction l with
  | nil => simp [dictLookup]
  | cons p rest ih =>
      obtain ⟨a, b⟩ := p
      by_cases h : a = k <;> simp_all [dictLookup]

theorem keys_dictUpdate {α β : Type} [DecidableEq α] (k : α) (f : β → β)
    (l : List (α × β)) :
    (dictUpdate k f l).map Prod.fst = l.map Prod.fst := by
  induction l with
  | nil => simp [dictUpdate]
  | cons p rest ih =>
      obtain ⟨a, b⟩ := p
      by_cases h : a = k <;> simp_all [dictUpdate]

theorem dictLookup_eq_none_iff {α β : Type} [DecidableEq α] (k : α)
    (l : List (α × β)) :
    dictLookup k l = none ↔ k ∉ l.map Prod.fst := by
  induction l with
  | nil => simp [dictLookup]
  | cons p rest ih =>
      obtain ⟨a, b⟩ := p
      by_cases h : a = k
      · subst h; simp [dictLookup]
      · simp [dictLookup, h, ih, Ne.symm h]

theorem mem_of_dictLookup_eq_some {α β : Type} [DecidableEq α] {k : α} {v : β}
    {l : List (α × β)} (h : dictLookup k l = some v) : (k, v) ∈ l := by
  induction l with
  | nil => simp [dictLookup] at h
  | cons p rest ih =>
      obtain ⟨a, b⟩ := p
      by_cases h1 : a = k <;> simp_all [dictLookup]

theorem dictLookup_eq_some_of_mem {α β : Type} [DecidableEq α] {k : α} {v : β}
    {l : List (α × β)} (hn : (l.map Prod.fst).Nodup) (hm : (k, v) ∈ l) :
    dictLookup k l = some v := by
  induction l with
  | nil => simp at hm
  | cons p rest ih =>
      obtain ⟨a, b⟩ := p
      simp only [List.map_cons, List.nodup_cons] at hn
      rcases List.mem_cons.mp hm with h | h
      · have hk : a = k := (congrArg Prod.fst h).symm
        have hv : b = v := (congrArg Prod.snd h).symm
        simp [dictLookup, hk, hv]
      · by_cases h1 : a = k
        · exact absurd (h1 ▸ List.mem_map_of_mem Prod.fst h) hn.1
        · simp [dictLookup, h1, ih hn.2 h]

theorem mem_dictUpdate {α β : Type} [DecidableEq α] {k : α} {f : β → β}
    {l : List (α × β)} {p : α × β} (h : p ∈ dictUpdate k f l) :
    p ∈ l ∨ (p.1 = k ∧ ∃ v, (k, v) ∈ l ∧ p.2 = f v) := by
  induction l with
  | nil => simp [dictUpdate] at h
  | cons q rest ih =>
      obtain ⟨a, b⟩ := q
      by_cases h1 : a = k
      · simp only [dictUpdate, if_pos h1] at h
        rcases List.mem_cons.mp h with h2 | h2
        · right
          refine ⟨by rw [h2, h1], b, ?_, by rw [h2]⟩
          exact h1 ▸ List.mem_cons_self _ _
        · exact Or.inl (List.mem_cons_of_mem _ h2)
      · simp only [dictUpdate, if_neg h1] at h
        rcases List.mem_cons.mp h with h2 | h2
        · exact Or.inl (h2 ▸ List.mem_cons_self _ _)
        · rcases ih h2 with h3 | ⟨h3, v, h4, h5⟩
          · exact Or.inl (List.mem_cons_of_mem _ h3)
          · exact Or.inr ⟨h3, v, List.mem_cons_of_mem _ h4, h5⟩

/-! ### Characterization of the episode merge -/

theorem lastWith_num {n : Nat} {l : List EpItem} {e : EpItem}
    (h : lastWith n l = some e) : e.episode_number = n := by
  induction l with
  | nil => simp [lastWith] at h
  | cons x rest ih =>
      simp only [lastWith] at h
      cases hr : lastWith n rest with
      | some y => rw [hr] at h; exact ih (hr.trans (by injection h with h; rw [h]))
      | none =>
          rw [hr] at h
          by_cases hx : x.episode_number = n
          · rw [if_pos hx] at h; injection h with h; rw [← h]; exact hx
          · rw [if_neg hx] at h; cases h

theorem lastWith_isSome_of_mem {l : List EpItem} {e : EpItem} (h : e ∈ l) :
    (lastWith e.episode_number l).isSome := by
  induction l with
  | nil => simp at h
  | cons x rest ih =>
      simp only [lastWith]
      rcases List.mem_cons.mp h with h1 | h1
      · cases hr : lastWith e.episode_number rest with
        | some y => simp
        | none => subst h1; simp
      · cases hr : lastWith e.episode_number rest with
        | some y => simp
        | none => rw [hr] at ih; cases (ih h1)

theorem updSlot_updSlot (src : SourceId) {e e' : EpItem} (o : Option EpRecord)
    (h : e.episode_number = e'.episode_number) :
    updSlot src e' (some (updSlot src e o)) = updSlot src e' o := by
  cases o with
  | some r => simp [updSlot, dictInsert_dictInsert]
  | none => simp [updSlot, dictInsert, h]

theorem dictLookup_processEp_self (src : SourceId) (acc : List (Nat × EpRecord))
    (e : EpItem) :
    dictLookup e.episode_number (processEp src acc e) =
      some (updSlot src e (dictLookup e.episode_number acc)) := by
  cases h : dictLookup e.episode_number acc with
  | some r => simp [processEp, h, dictLookup_dictUpdate, updSlot]
  | none => simp [processEp, h, dictLookup_append_single, updSlot]

theorem dictLookup_processEp_ne (src : SourceId) (acc : List (Nat × EpRecord))
    (e : EpItem) {n : Nat} (h : e.episode_number ≠ n) :
    dictLookup n (processEp src acc e) = dictLookup n acc := by
  cases h0 : dictLookup e.episode_number acc with
  | some r => simp only [processEp, h0, dictLookup_dictUpdate, if_neg h]
  | none =>
      simp only [processEp, h0, dictLookup_append_single, if_neg h]
      cases dictLookup n acc <;> rfl

/-- Lookup after a whole source pass: the stored record at `n` is the one
from before the pass, with this source's slot overwritten by the last item
of the sequence carrying number `n` (fresh records are created as needed). -/
theorem dictLookup_foldl_processEp (src : SourceId) (l : List EpItem)
    (acc : List (Nat × EpRecord)) (n : Nat) :
    dictLookup n (l.foldl (processEp src) acc) =
      match lastWith n l with
      | some e => some (updSlot src e (dictLookup n acc))
      | none => dictLookup n acc := by
  induction l generalizing acc with
  | nil => simp [lastWith]
  | cons e rest ih =>
      simp only [List.foldl_cons, lastWith]
      rw [ih (processEp src acc e)]
      cases hr : lastWith n rest with
      | some e' =>
          by_cases he : e.episode_number = n
          · rw [← he, dictLookup_processEp_self]
            exact congrArg some
              (updSlot_updSlot src _ (he.trans (lastWith_num hr).symm))
          · rw [dictLookup_processEp_ne src acc e he]
      | none =>
          by_cases he : e.episode_number = n
          · rw [if_pos he, ← he, dictLookup_processEp_self]
          · rw [if_neg he, dictLookup_processEp_ne src acc e he]

theorem dictLookup_updSlot_self (src : SourceId) (e : EpItem) (o : Option EpRecord) :
    dictLookup src (updSlot src e o).sources = some (availOf e) := by
  cases o with
  | some r => simp [updSlot, dictLookup_dictInsert]
  | none => simp [updSlot, dictLookup]

theorem dictLookup_updSlot_other {src other : SourceId} (hne : src ≠ other)
    (e : EpItem) (o : Option EpRecord) :
    dictLookup other (updSlot src e o).sources =
      match o with
      | some r => dictLookup other r.sources
      | none => none := by
  cases o with
  | some r => simp [updSlot, dictLookup_dictInsert, hne]
  | none => simp [updSlot, dictLookup, hne]

/-- A pass over the empty dict: the record stored at `n` is exactly the one
made from the last item with number `n`, when there is one. -/
theorem dictLookup_single_pass (src : SourceId) (eps : List EpItem) (n : Nat) :
    dictLookup n (eps.foldl (processEp src) []) =
      match lastWith n eps with
      | some e => some { episode_number := e.episode_number,
                         sources := [(src, availOf e)] }
      | none => none := by
  rw [dictLookup_foldl_processEp]
  cases lastWith n eps <;> rfl

/-! ### Invariants of the episode dict -/

theorem keyInv_processEp {src : SourceId} {acc : List (Nat × EpRecord)}
    {e : EpItem} (h : keyInv acc) : keyInv (processEp src acc e) := by
  intro p hp
  cases h0 : dictLookup e.episode_number acc with
  | some r =>
      rw [processEp, h0] at hp
      rcases mem_dictUpdate hp with h1 | ⟨h1, v, h2, h3⟩
      · exact h p h1
      · rw [h1, h3]; exact h (e.episode_number, v) h2
  | none =>
      rw [processEp, h0] at hp
      rcases List.mem_append.mp hp with h1 | h1
      · exact h p h1
      · rcases List.mem_singleton.mp h1 with h2
        rw [h2]

theorem keyInv_foldl_processEp {src : SourceId} {acc : List (Nat × EpRecord)}
    (l : List EpItem) (h : keyInv acc) :
    keyInv (l.foldl (processEp src) acc) := by
  induction l generalizing acc with
  | nil => exact h
  | cons e rest ih => exact ih (keyInv_processEp h)

theorem keysNodup_processEp {src : SourceId} {acc : List (Nat × EpRecord)}
    {e : EpItem} (h : keysNodup acc) : keysNodup (processEp src acc e) := by
  cases h0 : dictLookup e.episode_number acc with
  | some r =>
      rw [keysNodup, processEp, h0, keys_dictUpdate]
      exact h
  | none =>
      rw [keysNodup, processEp, h0, List.map_append]
      rw [List.nodup_append]
      refine ⟨h, List.nodup_singleton _, ?_⟩
      intro a ha hb
      rcases List.mem_singleton.mp hb with rfl
      exact (dictLookup_eq_none_iff _ _ |>.mp h0) ha

theorem keysNodup_foldl_processEp {src : SourceId} {acc : List (Nat × EpRecord)}
    (l : List EpItem) (h : keysNodup acc) :
    keysNodup (l.foldl (processEp src) acc) := by
  induction l generalizing acc with
  | nil => exact h
  | cons e rest ih => exact ih (keysNodup_processEp h)

theorem sourcePass_ok {idStr : Option String} (h : truthyS idStr = true)
    (src : SourceId) (eps : List EpItem) (acc : List (Nat × EpRecord)) :
    sourcePass src idStr (.ok eps) acc = eps.foldl (processEp src) acc := by
  simp [sourcePass, h]

theorem sourcePass_falsy {idStr : Option String} (h : truthyS idStr = false)
    (src : SourceId) (res : Except Unit (List EpItem)) (acc : List (Nat × EpRecord)) :
    sourcePass src idStr res acc = acc := by
  cases res <;> simp [sourcePass, h]

theorem sourcePass_err (src : SourceId) (idStr : Option String) (u : Unit)
    (acc : List (Nat × EpRecord)) :
    sourcePass src idStr (.error u) acc = acc := by
  unfold sourcePass
  cases truthyS idStr <;> rfl

theorem sourcePass_eq_foldl (src : SourceId) (idStr : Option String)
    (res : Except Unit (List EpItem)) (acc : List (Nat × EpRecord)) :
    sourcePass src idStr res acc = (sourceEps idStr res).foldl (processEp src) acc := by
  unfold sourcePass sourceEps
  cases truthyS idStr <;> cases res <;> rfl

theorem keyInv_sourcePass {acc : List (Nat × EpRecord)} (src : SourceId)
    (idStr : Option String) (res : Except Unit (List EpItem)) (h : keyInv acc) :
    keyInv (sourcePass src idStr res acc) := by
  unfold sourcePass
  cases truthyS idStr <;> cases res <;>
    first
      | exact h
      | exact keyInv_foldl_processEp _ h

theorem keysNodup_sourcePass {acc : List (Nat × EpRecord)} (src : SourceId)
    (idStr : Option String) (res : Except Unit (List EpItem)) (h : keysNodup acc) :
    keysNodup (sourcePass src idStr res acc) := by
  unfold sourcePass
  cases truthyS idStr <;> cases res <;>
    first
      | exact h
      | exact keysNodup_foldl_processEp _ h

theorem keyInv_epDict (AW AS : Option String)
    (awRes asRes : Except Unit (List EpItem)) : keyInv (epDict AW AS awRes asRes) :=
  keyInv_sourcePass _ _ _ (keyInv_sourcePass _ _ _ (by intro p hp; cases hp))

theorem keysNodup_epDict (AW AS : Option String)
    (awRes asRes : Except Unit (List EpItem)) :
    keysNodup (epDict AW AS awRes asRes) :=
  keysNodup_sourcePass _ _ _ (keysNodup_sourcePass _ _ _ List.nodup_nil)

/-! ### The unavailable fill and the output list -/

theorem fillSources_episode_number (r : EpRecord) :
    (fillSources r).episode_number = r.episode_number := rfl

theorem dictLookup_fillSources (src : SourceId) (r : EpRecord) :
    dictLookup src (fillSources r).sources =
      match dictLookup src r.sources with
      | some a => some a
      | none => some unavailable := by
  cases src with
  | AnimeWorld =>
      simp only [fillSources, List.foldl]
      cases h1 : dictLookup SourceId.AnimeWorld r.sources with
      | some a =>
          simp only [h1, Option.isSome_some, if_true]
          cases h2 : dictLookup SourceId.AnimeSaturn r.sources with
          | some b => simp [h2, h1]
          | none => simp [h2, dictLookup_dictInsert, h1]
      | none =>
          simp only [h1, Option.isSome_none, Bool.false_eq_true, if_false]
          have h1' : dictLookup SourceId.AnimeWorld
              (dictInsert SourceId.AnimeWorld unavailable r.sources) = some unavailable := by
            simp [dictLookup_dictInsert]
          cases h2 : dictLookup SourceId.AnimeSaturn
              (dictInsert SourceId.AnimeWorld unavailable r.sources) with
          | some b => simp [h2, h1']
          | none => simp [h2, dictLookup_dictInsert, h1']
  | AnimeSaturn =>
      simp only [fillSources, List.foldl]
      cases h1 : dictLookup SourceId.AnimeWorld r.sources with
      | some a =>
          simp only [h1, Option.isSome_some, if_true]
          cases h2 : dictLookup SourceId.AnimeSaturn r.sources with
          | some b => simp [h2]
          | none => simp [h2, dictLookup_dictInsert]
      | none =>
          simp only [h1, Option.isSome_none, Bool.false_eq_true, if_false]
          have h2' : dictLookup SourceId.AnimeSaturn
              (dictInsert SourceId.AnimeWorld unavailable r.sources) =
              dictLookup SourceId.AnimeSaturn r.sources := by
            simp [dictLookup_dictInsert]
          cases h2 : dictLookup SourceId.AnimeSaturn r.sources with
          | some b => simp [h2', h2]
          | none => simp [h2', h2, dictLookup_dictInsert]

theorem get_episodes_ok {AW AS : Option String}
    {awRes asRes : Except Unit (List EpItem)} {l : List EpRecord}
    (h : get_episodes AW AS awRes asRes = .ok l) : l = epOutput AW AS awRes asRes := by
  rw [get_episodes] at h
  by_cases hc : ¬ truthyS AW ∧ ¬ truthyS AS
  · rw [if_pos hc] at h; cases h
  · rw [if_neg hc] at h
    injection h with h
    exact h.symm

theorem mem_epOutput {AW AS : Option String}
    {awRes asRes : Except Unit (List EpItem)} {r : EpRecord} :
    r ∈ epOutput AW AS awRes asRes ↔
      ∃ k v, (k, v) ∈ epDict AW AS awRes asRes ∧ r = fillSources v := by
  rw [epOutput, List.mem_insertionSort]
  constructor
  · intro h
    rcases List.mem_map.mp h with ⟨v, hv, hr⟩
    rcases List.mem_map.mp hv with ⟨⟨k, w⟩, hkw, hw⟩
    exact ⟨k, w, hkw, by rw [← hr, ← hw]⟩
  · intro ⟨k, v, hkv, hr⟩
    exact hr ▸ List.mem_map_of_mem _ (List.mem_map_of_mem _ hkv)

theorem fillSources_mem_epOutput {AW AS : Option String}
    {awRes asRes : Except Unit (List EpItem)} {n : Nat} {v : EpRecord}
    (h : dictLookup n (epDict AW AS awRes asRes) = some v) :
    fillSources v ∈ epOutput AW AS awRes asRes :=
  mem_epOutput.mpr ⟨n, v, mem_of_dictLookup_eq_some h, rfl⟩

/-- Records produced by a pass of the "other" source only never mention
`other`: invariant used for the failed-source claims. -/
theorem dictLookup_other_foldl {src other : SourceId} (hne : src ≠ other)
    (eps : List EpItem) {acc : List (Nat × EpRecord)}
    (h : ∀ p ∈ acc, dictLookup other p.2.sources = none) :
    ∀ p ∈ eps.foldl (processEp src) acc, dictLookup other p.2.sources = none := by
  induction eps generalizing acc with
  | nil => exact h
  | cons e rest ih =>
      refine ih ?_
      intro p hp
      cases h0 : dictLookup e.episode_number acc with
      | some r =>
          rw [processEp, h0] at hp
          rcases mem_dictUpdate hp with h1 | ⟨h1, v, h2, h3⟩
          · exact h p h1
          · rw [h3]
            simp only [dictLookup_dictInsert, if_neg hne]
            exact h (e.episode_number, v) h2
      | none =>
          rw [processEp, h0] at hp
          rcases List.mem_append.mp hp with h1 | h1
          · exact h p h1
          · rcases List.mem_singleton.mp h1 with rfl
            simp [dictLookup, hne]

/-! ### Endpoint unfolding helpers -/

theorem truthyS_of_ne {s : String} (h : s ≠ "") : truthyS (some s) = true := by
  simp [truthyS, h]

theorem get_episodes_eq_ok {AW AS : Option String}
    (h : truthyS AW = true ∨ truthyS AS = true)
    (awRes asRes : Except Unit (List EpItem)) :
    get_episodes AW AS awRes asRes = .ok (epOutput AW AS awRes asRes) := by
  rw [get_episodes, if_neg]
  · rfl
  · intro hc
    rcases h with h | h
    · exact hc.1 h
    · exact hc.2 h

theorem get_seasons_eq_ok {AW AS : Option String}
    (h : truthyS AW = true ∨ truthyS AS = true)
    (awRes asRes : Except Unit (List EpItem)) :
    get_seasons AW AS awRes asRes = .ok ⟨awSeasonPart AW awRes, asSeasonPart AS asRes⟩ := by
  rw [get_seasons, if_neg]
  intro hc
  rcases h with h | h
  · exact hc.1 h
  · exact hc.2 h

theorem get_stream_urls_eq_ok {AW AS : Option String}
    (h : truthyS AW = true ∨ truthyS AS = true)
    (awRes asRes : Except Unit StreamRaw) :
    get_stream_urls AW AS awRes asRes =
      .ok ⟨awStreamSlot AW awRes, asStreamSlot AS asRes⟩ := by
  rw [get_stream_urls, if_neg]
  intro hc
  rcases h with h | h
  · exact hc.1 h
  · exact hc.2 h

theorem awSeasonPart_ok {AW : Option String} (h : truthyS AW = true)
    (eps : List EpItem) : awSeasonPart AW (.ok eps) = eps.map awSeasonEpisode := by
  simp [awSeasonPart, h]

theorem awSeasonPart_err (AW : Option String) (u : Unit) :
    awSeasonPart AW (.error u) = [] := by
  unfold awSeasonPart
  cases truthyS AW <;> rfl

theorem awSeasonPart_falsy {AW : Option String} (h : truthyS AW = false)
    (res : Except Unit (List EpItem)) : awSeasonPart AW res = [] := by
  cases res <;> simp [awSeasonPart, h]

theorem asSeasonPart_ok {AS : Option String} (h : truthyS AS = true)
    (eps : List EpItem) :
    asSeasonPart AS (.ok eps) = [("S1", eps.map asSeasonEpisode)] := by
  simp [asSeasonPart, h]

theorem asSeasonPart_err (AS : Option String) (u : Unit) :
    asSeasonPart AS (.error u) = [] := by
  unfold asSeasonPart
  cases truthyS AS <;> rfl

theorem asSeasonPart_falsy {AS : Option String} (h : truthyS AS = false)
    (res : Except Unit (List EpItem)) : asSeasonPart AS res = [] := by
  cases res <;> simp [asSeasonPart, h]

theorem awStreamSlot_err (AW : Option String) (u : Unit) :
    awStreamSlot AW (.error u) = defaultStream := by
  unfold awStreamSlot
  cases truthyS AW <;> rfl

theorem awStreamSlot_falsy {AW : Option String} (h : truthyS AW = false)
    (res : Except Unit StreamRaw) : awStreamSlot AW res = defaultStream := by
  cases res <;> simp [awStreamSlot, h]

theorem awStreamSlot_ok {AW : Option String} (h : truthyS AW = true)
    (raw : StreamRaw) :
    awStreamSlot AW (.ok raw) = if raw.truthy then awStream raw else defaultStream := by
  simp [awStreamSlot, h]

theorem asStreamSlot_err (AS : Option String) (u : Unit) :
    asStreamSlot AS (.error u) = defaultStream := by
  unfold asStreamSlot
  cases truthyS AS <;> rfl

theorem asStreamSlot_falsy {AS : Option String} (h : truthyS AS = false)
    (res : Except Unit StreamRaw) : asStreamSlot AS res = defaultStream := by
  cases res <;> simp [asStreamSlot, h]

theorem asStreamSlot_ok {AS : Option String} (h : truthyS AS = true)
    (data : StreamRaw) :
    asStreamSlot AS (.ok data) = if data.truthy then asStream data else defaultStream := by
  simp [asStreamSlot, h]

/-! ### Claims -/

/-- C2: for the episodes request where AnimeWorld returns
`[{episode_number: 1, id: "a1"}, {episode_number: 2, id: "a2"}]` and
AnimeSaturn returns `[{episode_number: 1, id: "b1"}]`, the merged output is
exactly two records in order: episode 1 with both sources available (ids
"a1" and "b1"), then episode 2 with AnimeWorld available (id "a2") and
AnimeSaturn `available=false` with id `None`. -/
theorem claim_C2_end_to_end_merge :
    get_episodes (some "aw1") (some "as1")
      (.ok [⟨1, none, none, "a1"⟩, ⟨2, none, none, "a2"⟩])
      (.ok [⟨1, none, none, "b1"⟩]) =
    .ok [⟨1, [(.AnimeWorld, ⟨true, none, some "a1"⟩),
              (.AnimeSaturn, ⟨true, none, some "b1"⟩)]⟩,
         ⟨2, [(.AnimeWorld, ⟨true, none, some "a2"⟩),
              (.AnimeSaturn, ⟨false, none, none⟩)]⟩] := rfl

/-- C10: a successful AnimeWorld stream result that is a non-empty dict
without a `"stream_url"` entry is reported as `available=true` with
`stream_url=None` and `embed=None` — `available=true` does not guarantee a
stream URL. -/
theorem claim_C10_available_without_url :
    get_stream_urls (some "ep7") none
      (.ok (.dict [("foo", some "bar")])) (.error ()) =
    .ok ⟨⟨true, none, none⟩, ⟨false, none, none⟩⟩ := rfl

/-- C5: a stream request supplying only the AnimeSaturn episode id whose
AnimeSaturn call fails returns successfully, with both sources
`available=false` and `stream_url=None`. -/
theorem claim_C5_stream_failure_returns_default (asId : String) (h : asId ≠ "")
    (awRes : Except Unit StreamRaw) :
    get_stream_urls none (some asId) awRes (.error ()) =
      .ok ⟨defaultStream, defaultStream⟩ := by
  rw [get_stream_urls_eq_ok (Or.inr (truthyS_of_ne h)),
    awStreamSlot_falsy (show truthyS none = false from rfl), asStreamSlot_err]

/-- Closed instance of C5 at `asId = "s1"`. -/
theorem claim_C5_witness :
    get_stream_urls none (some "s1") (.error ()) (.error ()) =
      .ok ⟨defaultStream, defaultStream⟩ :=
  claim_C5_stream_failure_returns_default "s1" (by decide) (.error ())

/-- C6: a search query whose trimmed length is below 2 yields the 400
validation error whatever the providers would return (no provider result is
consulted), and a query with trimmed length at least 2 never yields that
validation error. -/
theorem claim_C6_search_validation :
    (∀ (q : String), (pyStrip q).length < 2 →
       ∀ awRes asRes, search_anime q awRes asRes =
         .error ⟨400, "Query must be at least 2 characters long"⟩)
    ∧ (∀ (q : String), 2 ≤ (pyStrip q).length →
       ∀ awRes asRes, ∃ out, search_anime q awRes asRes = .ok out) := by
  constructor
  · intro q hq awRes asRes
    rw [search_anime, if_pos (Or.inr hq)]
  · intro q hq awRes asRes
    rw [search_anime, if_neg]
    · exact ⟨_, rfl⟩
    · intro hc
      rcases hc with hc | hc
      · rw [hc] at hq
        have h0 : (pyStrip "").length = 0 := rfl
        omega
      · omega

/-- Closed instance of C6: `"a"` is rejected, `"ab"` is accepted. -/
theorem claim_C6_witness :
    (search_anime "a" (.ok []) (.ok []) =
       .error ⟨400, "Query must be at least 2 characters long"⟩)
    ∧ (∃ out, search_anime "ab" (.error ()) (.error ()) = .ok out) :=
  ⟨claim_C6_search_validation.1 "a" (by decide) _ _,
   claim_C6_search_validation.2 "ab" (by decide) _ _⟩

/-- C3: every successful episodes response is sorted ascending by episode
number and contains no two records with the same episode number. -/
theorem claim_C3_sorted_and_unique (AW AS : Option String)
    (awRes asRes : Except Unit (List EpItem)) (l : List EpRecord)
    (h : get_episodes AW AS awRes asRes = .ok l) :
    List.Sorted epLe l ∧ (l.map EpRecord.episode_number).Nodup := by
  rw [get_episodes_ok h, epOutput]
  have hkeys := keysNodup_epDict AW AS awRes asRes
  have hinv := keyInv_epDict AW AS awRes asRes
  have hnum :
      (((epDict AW AS awRes asRes).map Prod.snd).map fillSources).map
          EpRecord.episode_number =
        (epDict AW AS awRes asRes).map Prod.fst := by
    rw [List.map_map, List.map_map]
    apply List.map_congr_left
    intro p hp
    show (fillSources p.2).episode_number = p.1
    rw [fillSources_episode_number]
    exact hinv p hp
  refine ⟨List.sorted_insertionSort epLe _, ?_⟩
  have hperm :
      List.Perm
        ((List.insertionSort epLe
            (((epDict AW AS awRes asRes).map Prod.snd).map fillSources)).map
          EpRecord.episode_number)
        ((((epDict AW AS awRes asRes).map Prod.snd).map fillSources).map
          EpRecord.episode_number) :=
    (List.perm_insertionSort epLe _).map _
  refine hperm.symm.nodup ?_
  rw [hnum]
  exact hkeys

/-- Closed instance of C3 (AnimeWorld reports episodes 2 then 1). -/
theorem claim_C3_witness :
    List.Sorted epLe
      ([⟨1, [(.AnimeWorld, ⟨true, none, some "a1"⟩), (.AnimeSaturn, unavailable)]⟩,
        ⟨2, [(.AnimeWorld, ⟨true, none, some "a2"⟩), (.AnimeSaturn, unavailable)]⟩] :
        List EpRecord) ∧
    (([⟨1, [(.AnimeWorld, ⟨true, none, some "a1"⟩), (.AnimeSaturn, unavailable)]⟩,
       ⟨2, [(.AnimeWorld, ⟨true, none, some "a2"⟩), (.AnimeSaturn, unavailable)]⟩] :
        List EpRecord).map EpRecord.episode_number).Nodup :=
  claim_C3_sorted_and_unique (some "x") none
    (.ok [⟨2, none, none, "a2"⟩, ⟨1, none, none, "a1"⟩]) (.error ()) _ rfl

theorem episodesFailedAW_holds (awId asId : String) (hb : asId ≠ "")
    (eps : List EpItem) : episodesFailedAW awId asId eps := by
  have hb' : truthyS (some asId) = true := truthyS_of_ne hb
  have hd : epDict (some awId) (some asId) (.error ()) (.ok eps) =
      eps.foldl (processEp .AnimeSaturn) [] := by
    rw [epDict, sourcePass_err, sourcePass_ok hb']
  have hd2 : epDict none (some asId) (.error ()) (.ok eps) =
      eps.foldl (processEp .AnimeSaturn) [] := by
    rw [epDict, sourcePass_err, sourcePass_ok hb']
  refine ⟨?_, epOutput (some awId) (some asId) (.error ()) (.ok eps),
    get_episodes_eq_ok (Or.inr hb') _ _, ?_, ?_, ?_⟩
  · rw [get_episodes_eq_ok (Or.inr hb'), get_episodes_eq_ok (Or.inr hb'),
      epOutput, epOutput, hd, hd2]
  · intro r hr
    rcases mem_epOutput.mp hr with ⟨k, v, hkv, rfl⟩
    rw [hd] at hkv
    have hnone :=
      dictLookup_other_foldl
        (show SourceId.AnimeSaturn ≠ SourceId.AnimeWorld by decide) eps
        (show ∀ p ∈ ([] : List (Nat × EpRecord)),
            dictLookup SourceId.AnimeWorld p.2.sources = none by
          intro p hp; cases hp)
        (k, v) hkv
    rw [dictLookup_fillSources, hnone]
  · intro e he
    rcases Option.isSome_iff_exists.mp (lastWith_isSome_of_mem he) with ⟨e', he'⟩
    have hlk : dictLookup e.episode_number
        (epDict (some awId) (some asId) (.error ()) (.ok eps)) =
        some ⟨e'.episode_number, [(SourceId.AnimeSaturn, availOf e')]⟩ := by
      rw [hd, dictLookup_single_pass, he']
    refine ⟨fillSources ⟨e'.episode_number, [(SourceId.AnimeSaturn, availOf e')]⟩,
      fillSources_mem_epOutput hlk, ?_⟩
    rw [fillSources_episode_number]
    exact lastWith_num he'
  · intro r hr
    rcases mem_epOutput.mp hr with ⟨k, v, hkv, rfl⟩
    have hnum : v.episode_number = k := keyInv_epDict _ _ _ _ (k, v) hkv
    have hlk : dictLookup k (epDict (some awId) (some asId) (.error ()) (.ok eps)) =
        some v := dictLookup_eq_some_of_mem (keysNodup_epDict _ _ _ _) hkv
    rw [hd, dictLookup_single_pass] at hlk
    cases hc : lastWith k eps with
    | none => rw [hc] at hlk; cases hlk
    | some e' =>
        rw [hc] at hlk
        injection hlk with hlk
        refine ⟨e', ?_, ?_⟩
        · rw [fillSources_episode_number, hnum]; exact hc
        · rw [dictLookup_fillSources, ← hlk]
          simp [dictLookup]

theorem episodesFailedAS_holds (awId asId : String) (ha : awId ≠ "")
    (eps : List EpItem) : episodesFailedAS awId asId eps := by
  have ha' : truthyS (some awId) = true := truthyS_of_ne ha
  have hd : epDict (some awId) (some asId) (.ok eps) (.error ()) =
      eps.foldl (processEp .AnimeWorld) [] := by
    rw [epDict, sourcePass_err, sourcePass_ok ha']
  have hd2 : epDict (some awId) none (.ok eps) (.error ()) =
      eps.foldl (processEp .AnimeWorld) [] := by
    rw [epDict, sourcePass_err, sourcePass_ok ha']
  refine ⟨?_, epOutput (some awId) (some asId) (.ok eps) (.error ()),
    get_episodes_eq_ok (Or.inl ha') _ _, ?_, ?_, ?_⟩
  · rw [get_episodes_eq_ok (Or.inl ha'), get_episodes_eq_ok (Or.inl ha'),
      epOutput, epOutput, hd, hd2]
  · intro r hr
    rcases mem_epOutput.mp hr with ⟨k, v, hkv, rfl⟩
    rw [hd] at hkv
    have hnone :=
      dictLookup_other_foldl
        (show SourceId.AnimeWorld ≠ SourceId.AnimeSaturn by decide) eps
        (show ∀ p ∈ ([] : List (Nat × EpRecord)),
            dictLookup SourceId.AnimeSaturn p.2.sources = none by
          intro p hp; cases hp)
        (k, v) hkv
    rw [dictLookup_fillSources, hnone]
  · intro e he
    rcases Option.isSome_iff_exists.mp (lastWith_isSome_of_mem he) with ⟨e', he'⟩
    have hlk : dictLookup e.episode_number
        (epDict (some awId) (some asId) (.ok eps) (.error ())) =
        some ⟨e'.episode_number, [(SourceId.AnimeWorld, availOf e')]⟩ := by
      rw [hd, dictLookup_single_pass, he']
    refine ⟨fillSources ⟨e'.episode_number, [(SourceId.AnimeWorld, availOf e')]⟩,
      fillSources_mem_epOutput hlk, ?_⟩
    rw [fillSources_episode_number]
    exact lastWith_num he'
  · intro r hr
    rcases mem_epOutput.mp hr with ⟨k, v, hkv, rfl⟩
    have hnum : v.episode_number = k := keyInv_epDict _ _ _ _ (k, v) hkv
    have hlk : dictLookup k (epDict (some awId) (some asId) (.ok eps) (.error ())) =
        some v := dictLookup_eq_some_of_mem (keysNodup_epDict _ _ _ _) hkv
    rw [hd, dictLookup_single_pass] at hlk
    cases hc : lastWith k eps with
    | none => rw [hc] at hlk; cases hlk
    | some e' =>
        rw [hc] at hlk
        injection hlk with hlk
        refine ⟨e', ?_, ?_⟩
        · rw [fillSources_episode_number, hnum]; exact hc
        · rw [dictLookup_fillSources, ← hlk]
          simp [dictLookup]

theorem seasonsFailedAW_holds (awId asId : String) (hb : asId ≠ "")
    (eps : List EpItem) : seasonsFailedAW awId asId eps := by
  have hb' : truthyS (some asId) = true := truthyS_of_ne hb
  refine ⟨?_,
    ⟨awSeasonPart (some awId) (.error ()), asSeasonPart (some asId) (.ok eps)⟩,
    get_seasons_eq_ok (Or.inr hb') _ _, awSeasonPart_err _ _,
    asSeasonPart_ok hb' _, ?_⟩
  · rw [get_seasons_eq_ok (Or.inr hb'), get_seasons_eq_ok (Or.inr hb'),
      awSeasonPart_err, awSeasonPart_err]
  · intro p hp r hr
    rw [asSeasonPart_ok hb'] at hp
    rcases List.mem_singleton.mp hp with rfl
    rcases List.mem_map.mp hr with ⟨ep, hep, rfl⟩
    simp [asSeasonEpisode, dictLookup]

theorem seasonsFailedAS_holds (awId asId : String) (ha : awId ≠ "")
    (eps : List EpItem) : seasonsFailedAS awId asId eps := by
  have ha' : truthyS (some awId) = true := truthyS_of_ne ha
  refine ⟨?_,
    ⟨awSeasonPart (some awId) (.ok eps), asSeasonPart (some asId) (.error ())⟩,
    get_seasons_eq_ok (Or.inl ha') _ _, asSeasonPart_err _ _,
    awSeasonPart_ok ha' _, ?_⟩
  · rw [get_seasons_eq_ok (Or.inl ha'), get_seasons_eq_ok (Or.inl ha'),
      asSeasonPart_err, asSeasonPart_err]
  · intro r hr
    rw [awSeasonPart_ok ha'] at hr
    rcases List.mem_map.mp hr with ⟨ep, hep, rfl⟩
    simp [awSeasonEpisode, dictLookup]

/-- C1: for an episodes or seasons request naming both sources where
exactly one source's provider call fails, the call succeeds, the failed
source is `available=false` with `url=None, id=None` on every episode, and
the surviving source's episodes are reported exactly as that source
returned them (the result equals the surviving-source-only response). -/
theorem claim_C1_single_failure_degrades (awId asId : String)
    (ha : awId ≠ "") (hb : asId ≠ "") (eps : List EpItem) :
    oneSourceFailedProp awId asId eps :=
  ⟨episodesFailedAW_holds awId asId hb eps,
   episodesFailedAS_holds awId asId ha eps,
   seasonsFailedAW_holds awId asId hb eps,
   seasonsFailedAS_holds awId asId ha eps⟩

/-- Closed instance of C1. -/
theorem claim_C1_witness : oneSourceFailedProp "x" "y" [⟨1, none, none, "e1"⟩] :=
  claim_C1_single_failure_degrades "x" "y" (by decide) (by decide) _

/-- C4: every record of a successful episodes response carries an entry for
both configured sources in its sources mapping, even for a source that was
never queried. -/
theorem claim_C4_all_sources_present (AW AS : Option String)
    (awRes asRes : Except Unit (List EpItem)) (l : List EpRecord)
    (h : get_episodes AW AS awRes asRes = .ok l) :
    ∀ r ∈ l, (dictLookup SourceId.AnimeWorld r.sources).isSome ∧
             (dictLookup SourceId.AnimeSaturn r.sources).isSome := by
  rw [get_episodes_ok h]
  intro r hr
  rcases mem_epOutput.mp hr with ⟨k, v, hkv, rfl⟩
  constructor <;>
  · rw [dictLookup_fillSources]
    cases dictLookup _ v.sources <;> simp

/-- Closed instance of C4 (only AnimeSaturn queried; the AnimeWorld entry
of the single record exists even though AnimeWorld was never asked). -/
theorem claim_C4_witness :
    (dictLookup SourceId.AnimeWorld
      (EpRecord.sources
        ⟨3, [(.AnimeSaturn, ⟨true, none, some "b3"⟩), (.AnimeWorld, unavailable)]⟩)).isSome ∧
    (dictLookup SourceId.AnimeSaturn
      (EpRecord.sources
        ⟨3, [(.AnimeSaturn, ⟨true, none, some "b3"⟩), (.AnimeWorld, unavailable)]⟩)).isSome :=
  claim_C4_all_sources_present none (some "y") (.error ())
    (.ok [⟨3, none, none, "b3"⟩]) _ rfl
    ⟨3, [(.AnimeSaturn, ⟨true, none, some "b3"⟩), (.AnimeWorld, unavailable)]⟩
    (by decide)

/-- C7: for EVERY successful episodes request — either or both sources
queried, duplicates allowed in either source's sequence — each record's
slot for a source is built from that source's LAST item carrying that
episode number (last write wins within a source), the other source's slots
are a function of that other source's own sequence alone, and every
contributed episode number appears in the output. -/
theorem claim_C7_duplicate_last_write_wins (AW AS : Option String)
    (awRes asRes : Except Unit (List EpItem)) (l : List EpRecord)
    (h : get_episodes AW AS awRes asRes = .ok l) :
    lastWriteWinsProp AW AS awRes asRes l := by
  have hl := get_episodes_ok h
  have hd : epDict AW AS awRes asRes =
      (sourceEps AS asRes).foldl (processEp .AnimeSaturn)
        ((sourceEps AW awRes).foldl (processEp .AnimeWorld) []) := by
    rw [epDict, sourcePass_eq_foldl, sourcePass_eq_foldl]
  constructor
  · intro r hr
    rw [hl] at hr
    rcases mem_epOutput.mp hr with ⟨k, v, hkv, rfl⟩
    have hnum : v.episode_number = k := keyInv_epDict _ _ _ _ (k, v) hkv
    have hlk : dictLookup k (epDict AW AS awRes asRes) = some v :=
      dictLookup_eq_some_of_mem (keysNodup_epDict _ _ _ _) hkv
    rw [hd, dictLookup_foldl_processEp] at hlk
    constructor
    · rw [dictLookup_fillSources, fillSources_episode_number, hnum]
      cases hc2 : lastWith k (sourceEps AS asRes) with
      | some e2 =>
          rw [hc2] at hlk
          injection hlk with hlk
          rw [← hlk,
            dictLookup_updSlot_other
              (show SourceId.AnimeSaturn ≠ SourceId.AnimeWorld by decide),
            dictLookup_single_pass]
          cases hc1 : lastWith k (sourceEps AW awRes) with
          | some e1 => simp [dictLookup]
          | none => simp
      | none =>
          rw [hc2, dictLookup_single_pass] at hlk
          cases hc1 : lastWith k (sourceEps AW awRes) with
          | some e1 =>
              rw [hc1] at hlk
              injection hlk with hlk
              rw [← hlk]
              simp [dictLookup]
          | none => rw [hc1] at hlk; cases hlk
    · rw [dictLookup_fillSources, fillSources_episode_number, hnum]
      cases hc2 : lastWith k (sourceEps AS asRes) with
      | some e2 =>
          rw [hc2] at hlk
          injection hlk with hlk
          rw [← hlk, dictLookup_updSlot_self]
      | none =>
          rw [hc2] at hlk
          have hmem := mem_of_dictLookup_eq_some hlk
          have hnone :=
            dictLookup_other_foldl
              (show SourceId.AnimeWorld ≠ SourceId.AnimeSaturn by decide)
              (sourceEps AW awRes)
              (show ∀ p ∈ ([] : List (Nat × EpRecord)),
                  dictLookup SourceId.AnimeSaturn p.2.sources = none by
                intro p hp; cases hp)
              (k, v) hmem
          rw [hnone]
  · intro n hn
    have hx : ∃ v, dictLookup n (epDict AW AS awRes asRes) = some v
        ∧ v.episode_number = n := by
      rw [hd, dictLookup_foldl_processEp]
      cases hc2 : lastWith n (sourceEps AS asRes) with
      | some e2 =>
          cases hc1 : dictLookup n
              ((sourceEps AW awRes).foldl (processEp .AnimeWorld) []) with
          | some r1 =>
              refine ⟨_, rfl, ?_⟩
              exact keyInv_foldl_processEp _ (by intro p hp; cases hp) (n, r1)
                (mem_of_dictLookup_eq_some hc1)
          | none => exact ⟨_, rfl, lastWith_num hc2⟩
      | none =>
          rcases hn with hn | hn
          · rw [dictLookup_single_pass]
            rcases Option.isSome_iff_exists.mp hn with ⟨e1, he1⟩
            rw [he1]
            exact ⟨_, rfl, lastWith_num he1⟩
          · rw [hc2] at hn
            simp at hn
    rcases hx with ⟨v, hv, hvn⟩
    refine ⟨fillSources v, ?_, ?_⟩
    · rw [hl]; exact fillSources_mem_epOutput hv
    · rw [fillSources_episode_number]; exact hvn

/-- Closed instance of C7: AnimeSaturn reports episode 1 twice (ids "b1"
then "b2"); the merged record keeps AnimeSaturn id "b2" while AnimeWorld's
slot is untouched. -/
theorem claim_C7_witness :
    lastWriteWinsProp (some "x") (some "y")
      (.ok [⟨1, none, none, "a1"⟩])
      (.ok [⟨1, none, none, "b1"⟩, ⟨1, none, none, "b2"⟩])
      [⟨1, [(.AnimeWorld, ⟨true, none, some "a1"⟩),
            (.AnimeSaturn, ⟨true, none, some "b2"⟩)]⟩] :=
  claim_C7_duplicate_last_write_wins (some "x") (some "y")
    (.ok [⟨1, none, none, "a1"⟩])
    (.ok [⟨1, none, none, "b1"⟩, ⟨1, none, none, "b2"⟩]) _ rfl

/-- Counterexample to C8 as stated ("when the source's result does carry
embed markup, that markup is used"): an AnimeWorld stream result carrying
pre-built embed markup `"CUSTOM"` together with a url is answered with the
iframe synthesized from the url — the provided markup is ignored. -/
theorem claim_C8_counterexample :
    get_stream_urls (some "ep1") none
      (.ok (.dict [("stream_url", some "http://u"), ("embed", some "CUSTOM")]))
      (.error ()) =
      .ok ⟨⟨true, some "http://u", some (iframeEmbed "http://u")⟩, defaultStream⟩
    ∧ iframeEmbed "http://u" ≠ "CUSTOM" :=
  ⟨rfl, by decide⟩

/-- C8 (amended): embed synthesis is a deterministic pure function of the
url and the source identity; pre-built markup is honoured only for
AnimeSaturn, while AnimeWorld always resynthesizes its iframe embed. -/
theorem claim_C8_embed_synthesis : embedSynthesisProp := by
  refine ⟨?_, ?_, ?_⟩
  · intro awId ha d u AS asRes hd hu hune
    have ha' : truthyS (some awId) = true := truthyS_of_ne ha
    have ht : (StreamRaw.dict d).truthy = true := by
      simp [StreamRaw.truthy, hd]
    refine ⟨_, get_stream_urls_eq_ok (Or.inl ha') _ _, ?_⟩
    rw [awStreamSlot_ok ha', ht]
    simp [awStream, hu, hune]
  · intro asId hb d u AW awRes hd hu hune hemb
    have hb' : truthyS (some asId) = true := truthyS_of_ne hb
    have ht : (StreamRaw.dict d).truthy = true := by
      simp [StreamRaw.truthy, hd]
    refine ⟨_, get_stream_urls_eq_ok (Or.inr hb') _ _, ?_⟩
    rw [asStreamSlot_ok hb', ht]
    simp [asStream, hu, hune, hemb]
  · intro asId hb d m AW awRes hd hm hmne
    have hb' : truthyS (some asId) = true := truthyS_of_ne hb
    have ht : (StreamRaw.dict d).truthy = true := by
      simp [StreamRaw.truthy, hd]
    refine ⟨_, get_stream_urls_eq_ok (Or.inr hb') _ _, ?_⟩
    rw [asStreamSlot_ok hb', ht]
    have hmt : truthyS (some m) = true := truthyS_of_ne hmne
    cases hget : StreamRaw.get "stream_url" (.dict d) <;>
      simp [asStream, hm, hget, hmt]

/-- Closed instance of amended C8, one per branch, including dual-source
requests (both episode ids supplied). -/
theorem claim_C8_witness :
    (∃ res, get_stream_urls (some "e1") (some "z")
        (.ok (.dict [("stream_url", some "u1")])) (.ok (.str "w")) = .ok res
      ∧ res.AnimeWorld = ⟨true, some "u1", some (iframeEmbed "u1")⟩)
    ∧ (∃ res, get_stream_urls (some "z") (some "e2") (.ok (.str "w"))
        (.ok (.dict [("stream_url", some "u2")])) = .ok res
      ∧ res.AnimeSaturn = ⟨true, some "u2", some (videoEmbed "u2")⟩)
    ∧ (∃ res, get_stream_urls none (some "e3") (.error ())
        (.ok (.dict [("stream_url", some "u3"), ("embed", some "<b>M</b>")])) = .ok res
      ∧ res.AnimeSaturn = ⟨true, some "u3", some "<b>M</b>"⟩) :=
  ⟨claim_C8_embed_synthesis.1 "e1" (by decide) _ "u1" (some "z") (.ok (.str "w"))
     (by decide) rfl (by decide),
   claim_C8_embed_synthesis.2.1 "e2" (by decide) _ "u2" (some "z") (.ok (.str "w"))
     (by decide) rfl (by decide) rfl,
   claim_C8_embed_synthesis.2.2 "e3" (by decide) _ "<b>M</b>" none (.error ())
     (by decide) rfl (by decide)⟩

/-- Counterexample to C9 as stated: AnimeWorld is queried as a flat-list
source and reports one episode, but the result places no default season
grouping under its key — its episodes come back as a bare unlabelled list,
and the only season-label mapping in the result (under `"AnimeSaturn"`) is
empty. -/
theorem claim_C9_counterexample :
    get_seasons (some "x") none (.ok [⟨1, none, none, "a1"⟩]) (.error ()) =
      .ok ⟨[⟨1, [(SourceId.AnimeWorld, ⟨true, none, some "a1"⟩),
                 (SourceId.AnimeSaturn, unavailable)]⟩], []⟩ := rfl

theorem get_seasons_ok {AW AS : Option String}
    {awRes asRes : Except Unit (List EpItem)} {s : SeasonResult}
    (h : get_seasons AW AS awRes asRes = .ok s) :
    s = ⟨awSeasonPart AW awRes, asSeasonPart AS asRes⟩ := by
  rw [get_seasons] at h
  by_cases hc : ¬ truthyS AW ∧ ¬ truthyS AS
  · rw [if_pos hc] at h; cases h
  · rw [if_neg hc] at h
    injection h with h
    exact h.symm

/-- C9 (amended): for EVERY successful seasons request, each queried
source's flat list contributes independently — only AnimeSaturn's under the
single default season label `"S1"` (AnimeWorld unavailable in each of its
episodes); AnimeWorld's is returned unlabelled under its key (AnimeSaturn
unavailable in each of its episodes). -/
theorem claim_C9_season_shape (AW AS : Option String)
    (awRes asRes : Except Unit (List EpItem)) (s : SeasonResult)
    (h : get_seasons AW AS awRes asRes = .ok s) :
    seasonShapeProp AW AS awRes asRes s := by
  have hs := get_seasons_ok h
  constructor
  · intro eps hAW hres
    subst hres
    have h1 : s.AnimeWorld = eps.map awSeasonEpisode := by
      rw [hs]; exact awSeasonPart_ok hAW eps
    refine ⟨h1, ?_⟩
    rw [h1]
    intro r hr
    rcases List.mem_map.mp hr with ⟨ep, hep, rfl⟩
    simp [awSeasonEpisode, dictLookup]
  · intro eps hAS hres
    subst hres
    have h2 : s.AnimeSaturn = [("S1", eps.map asSeasonEpisode)] := by
      rw [hs]; exact asSeasonPart_ok hAS eps
    refine ⟨h2, ?_⟩
    rw [h2]
    intro p hp r hr
    rcases List.mem_singleton.mp hp with rfl
    rcases List.mem_map.mp hr with ⟨ep, hep, rfl⟩
    simp [asSeasonEpisode, dictLookup]

/-- Closed instance of amended C9, at a single-source request (only
AnimeWorld queried). -/
theorem claim_C9_witness :
    seasonShapeProp (some "x") none (.ok [⟨1, none, none, "a1"⟩]) (.error ())
      ⟨[⟨1, [(SourceId.AnimeWorld, ⟨true, none, some "a1"⟩),
             (SourceId.AnimeSaturn, unavailable)]⟩], []⟩ :=
  claim_C9_season_shape (some "x") none (.ok [⟨1, none, none, "a1"⟩])
    (.error ()) _ rfl

end AnimeApi

